import Mathlib

/-!
# Verification of the Google-Workspace multi-account OAuth core

Shallow embedding of the credential store, auth manager, capability-module
tool layer and line-protocol dispatcher of the repository, with theorems
settling the frozen claims about them.

The Python sources embedded here are `auth/auth_manager.py`, `mcp_server.py`
and the seven `tools/*_tools.py` capability modules.  File I/O is modelled as
an association list from account identity (email) to the stored token record;
JSON (de)serialisation of that record and ISO-8601 encoding of the expiry are
modelled as the identity on the structured data they carry.  Third-party
network calls (token refresh, code exchange, userinfo, per-operation Google
API calls) are modelled as oracle parameters.
-/

namespace GoogleWorkspace

/-- The seven fields of the on-disk token record written by
`AuthManager._save_tokens` (`token`, `refresh_token`, `token_uri`,
`client_id`, `client_secret`, `scopes`, `expiry`).  The expiry is stored as
the instant it denotes (the ISO-8601 text round-trips through
`datetime.isoformat`/`fromisoformat` to the same instant). -/
structure TokenData where
  token : Option String
  refresh_token : Option String
  token_uri : Option String
  client_id : Option String
  client_secret : Option String
  scopes : Option (List String)
  expiry : Option Int
deriving DecidableEq

/-- The in-memory `google.oauth2.credentials.Credentials` object, restricted
to the fields the repository reads and writes. -/
structure Credentials where
  token : Option String
  refresh_token : Option String
  token_uri : Option String
  client_id : Option String
  client_secret : Option String
  scopes : Option (List String)
  expiry : Option Int
deriving DecidableEq

/-- The token directory: one record per account identity (file-per-account,
keyed by email). -/
def Store : Type := List (String × TokenData)

instance : DecidableEq Store := by unfold Store; infer_instance

/-- Look a record up by account identity (file-existence check plus read). -/
def storeGet (s : Store) (email : String) : Option TokenData :=
  List.lookup email s

/-- Delete every entry stored under `email` (file deletion). -/
def storeErase (s : Store) (email : String) : Store :=
  List.filter (fun p => !(p.fst == email)) s

/-- Overwrite the record stored under `email` wholesale. -/
def storeSet (s : Store) (email : String) (d : TokenData) : Store :=
  (email, d) :: storeErase s email

/-- `AuthManager._save_tokens`: serialise the credential fields into the
token record and overwrite the account's file. -/
def save_tokens (s : Store) (email : String) (c : Credentials) : Store :=
  storeSet s email
    { token := c.token
      refresh_token := c.refresh_token
      token_uri := c.token_uri
      client_id := c.client_id
      client_secret := c.client_secret
      scopes := c.scopes
      expiry := c.expiry }

/-- `AuthManager._load_tokens`: absent file gives `none`; otherwise rebuild a
`Credentials` from the stored fields, setting the expiry only when one was
stored. -/
def load_tokens (s : Store) (email : String) : Option Credentials :=
  match storeGet s email with
  | none => none
  | some d =>
    some { token := d.token
           refresh_token := d.refresh_token
           token_uri := d.token_uri
           client_id := d.client_id
           client_secret := d.client_secret
           scopes := d.scopes
           expiry := match d.expiry with
                     | some e => some e
                     | none => none }

/-- `Credentials.expired` (google-auth): false when no expiry is recorded,
true when the recorded expiry is not in the future of the current time. -/
def Credentials.expired (c : Credentials) (now : Int) : Bool :=
  match c.expiry with
  | none => false
  | some e => decide (e ≤ now)

/-- Python truthiness of an optional string (`None` and `''` are falsy), as
used by `if creds.refresh_token` / `if not email`. -/
def truthyStr : Option String → Bool
  | none => false
  | some t => !(t == "")

/-- A minted service handle: `build(service_name, version, credentials=...)`
restricted to what the repository observes of it. -/
structure Handle where
  service : String
  version : String
  token : Option String
deriving DecidableEq

/-- A successful token-endpoint refresh response: new access token and
lifetime in seconds. -/
structure RefreshResponse where
  access_token : String
  expires_in : Int
deriving DecidableEq

/-- Modelled from the spec: `creds.refresh(Request())`
(google.oauth2 `Credentials.refresh`, outside the repository) performs a
token refresh against the token endpoint; on success it installs the new
access token and an expiry `expires_in` seconds after the current time,
keeping the remaining fields. -/
def refreshCreds (c : Credentials) (resp : RefreshResponse) (now : Int) : Credentials :=
  { c with token := some resp.access_token, expiry := some (now + resp.expires_in) }

/-- Result of `AuthManager.get_authenticated_client`: the returned handle (or
`None`), the token directory afterwards, and how many refresh calls were
issued against the token endpoint. -/
structure ClientResult where
  handle : Option Handle
  store : Store
  refreshCalls : Nat
deriving DecidableEq

/-- `AuthManager.get_authenticated_client`: load the record (absent gives
`None`); when it is expired and a refresh token is present, refresh once —
`refreshResp = none` models the refresh call raising, which the surrounding
`except` converts into `None` with nothing persisted — then persist and build;
otherwise build a handle straight from the stored token. -/
def get_authenticated_client (refreshResp : Option RefreshResponse) (now : Int)
    (s : Store) (email service version : String) : ClientResult :=
  match load_tokens s email with
  | none => ⟨none, s, 0⟩
  | some creds =>
    if creds.expired now && truthyStr creds.refresh_token then
      match refreshResp with
      | none => ⟨none, s, 1⟩
      | some resp =>
        let creds2 := refreshCreds creds resp now
        ⟨some ⟨service, version, creds2.token⟩, save_tokens s email creds2, 1⟩
    else
      ⟨some ⟨service, version, creds.token⟩, s, 0⟩

/-- `AuthManager.remove_account`: delete the account's token file when it
exists; report success either way. -/
def remove_account (s : Store) (email : String) : Bool × Store :=
  if (storeGet s email).isSome then (true, storeErase s email) else (true, s)

/-- Outcome of `AuthManager.handle_oauth_callback`: the success flag, the
resolved account identity, the error message, and the token directory
afterwards. -/
structure CallbackOutcome where
  success : Bool
  email : Option String
  error : Option String
  store : Store
deriving DecidableEq

/-- `AuthManager.handle_oauth_callback`: exchange the code for tokens
(`fetchToken`, the flow's `fetch_token`, failure meaning the exchange
raised), resolve the account identity through the userinfo endpoint
(`userinfo`), reject a missing email, and persist the tokens under the
resolved identity.  The `state` argument is received but the body never
consults it. -/
def handle_oauth_callback (fetchToken : String → Except String Credentials)
    (userinfo : Credentials → Except String (Option String))
    (s : Store) (code : String) (state : String) : CallbackOutcome :=
  match fetchToken code with
  | .error e => ⟨false, none, some e, s⟩
  | .ok creds =>
    match userinfo creds with
    | .error e => ⟨false, none, some e, s⟩
    | .ok none => ⟨false, none, some "Could not retrieve user email", s⟩
    | .ok (some email) => ⟨true, some email, none, save_tokens s email creds⟩

/-! ## Capability modules and dispatcher (`tools/*_tools.py`, `mcp_server.py`)

Tool arguments are modelled as a string-keyed association list (every
argument the guarded preamble of a module inspects is a string); the
per-operation Google API work inside each module's `try` block is modelled
as an oracle from the operation name and arguments to the produced result. -/

/-- The `arguments` object of a `tools/call` request. -/
def Args : Type := List (String × String)

instance : DecidableEq Args := by unfold Args; infer_instance

/-- `args.get(key)` followed by a Python truthiness test (`if not email`):
yields the value only when present and non-empty. -/
def truthyGet (args : Args) (key : String) : Option String :=
  match List.lookup key args with
  | none => none
  | some v => if v = "" then none else some v

/-- A tool result `{"content": [{"type": "text", "text": ...}, ...]}`,
modelled as the list of its text payloads (every content item the repository
produces has type `"text"`). -/
def ToolResult : Type := List String

instance : DecidableEq ToolResult := by unfold ToolResult; infer_instance

/-- A single-text tool result. -/
def textResult (t : String) : ToolResult := [t]

instance instDecEqExceptStringToolResult : DecidableEq (Except String ToolResult)
  | .ok a, .ok b =>
    if h : a = b then .isTrue (congrArg Except.ok h)
    else .isFalse (fun q => h (Except.ok.inj q))
  | .error a, .error b =>
    if h : a = b then .isTrue (congrArg Except.error h)
    else .isFalse (fun q => h (Except.error.inj q))
  | .ok _, .error _ => .isFalse (fun q => Except.noConfusion q)
  | .error _, .ok _ => .isFalse (fun q => Except.noConfusion q)

/-- Outcome of one `handle_tool` call: the produced result (`Except.error`
models an exception escaping to the dispatcher) together with the number of
`get_authenticated_client` calls made. -/
structure HandleOutcome where
  result : Except String ToolResult
  authLoads : Nat
deriving DecidableEq

/-- Descriptor names returned by `AccountTools.get_tools` (the same literal
names recur in its `has_tool`); the descriptors' schemas are elided, each
descriptor being represented by its name. -/
def accountToolNames : List String :=
  ["list_workspace_accounts", "authenticate_workspace_account", "remove_workspace_account"]

/-- Descriptor names of `GmailTools.get_tools` / `has_tool`. -/
def gmailToolNames : List String :=
  ["search_workspace_emails", "send_workspace_email", "manage_workspace_draft",
   "manage_workspace_label", "manage_workspace_label_assignment", "get_workspace_gmail_settings"]

/-- Descriptor names of `CalendarTools.get_tools` / `has_tool`. -/
def calendarToolNames : List String :=
  ["list_workspace_calendar_events", "get_workspace_calendar_event",
   "create_workspace_calendar_event", "manage_workspace_calendar_event",
   "delete_workspace_calendar_event"]

/-- Descriptor names of `DriveTools.get_tools` / `has_tool`. -/
def driveToolNames : List String :=
  ["list_drive_files", "search_drive_files", "upload_drive_file", "download_drive_file",
   "delete_drive_file", "create_drive_folder", "update_drive_permissions"]

/-- Descriptor names of `ContactsTools.get_tools` / `has_tool`. -/
def contactsToolNames : List String :=
  ["get_workspace_contacts"]

/-- Descriptor names of `DocsTools.get_tools` / `has_tool`. -/
def docsToolNames : List String :=
  ["create_workspace_document", "copy_workspace_document", "get_workspace_document",
   "list_workspace_documents", "insert_text_into_document", "delete_text_from_document",
   "batch_update_document"]

/-- Descriptor names of `SheetsTools.get_tools` / `has_tool`. -/
def sheetsToolNames : List String :=
  ["create_workspace_spreadsheet", "get_sheet_values", "batch_get_sheet_values",
   "update_sheet_values", "batch_update_sheet_values", "append_sheet_values"]

/-- Python `str` of the list `AuthManager.list_accounts` returns
(`[{'email': e, 'authenticated': True}, ...]`). -/
def pyStrAccounts (l : List String) : String :=
  "[" ++ String.intercalate ", "
    (l.map fun e => "\x7b'email': '" ++ e ++ "', 'authenticated': True\x7d") ++ "]"

/-- `AccountTools.handle_tool`: `accounts` is what `list_accounts` yields,
`removeOk` the outcome of `remove_account`, `authUrlRes` the outcome of
`get_auth_url` (`inl` the authorization URL on success, `inr` the reported
error).  Listing needs no arguments; authentication treats the email as
optional; removal demands a truthy email; an unknown name raises
`ValueError` (the `Except.error`). -/
def account_handle_tool (accounts : List String) (removeOk : String → Bool)
    (authUrlRes : String ⊕ String) (name : String) (args : Args) : HandleOutcome :=
  if name = "list_workspace_accounts" then
    ⟨.ok (textResult (pyStrAccounts accounts)), 0⟩
  else if name = "authenticate_workspace_account" then
    match authUrlRes with
    | .inl url =>
      ⟨.ok (textResult ("Please visit this URL to authenticate:\n\n" ++ url ++
        "\n\nAfter clicking 'Allow' on the Google authorization page, the authentication will complete automatically.")), 0⟩
    | .inr e => ⟨.ok (textResult ("Failed to generate auth URL: " ++ e)), 0⟩
  else if name = "remove_workspace_account" then
    match truthyGet args "email" with
    | none => ⟨.ok (textResult "Error: email is required"), 0⟩
    | some email =>
      if removeOk email then ⟨.ok (textResult ("Successfully removed account: " ++ email)), 0⟩
      else ⟨.ok (textResult ("Failed to remove account: " ++ email)), 0⟩
  else ⟨.error ("Unknown tool: " ++ name), 0⟩

/-- `GmailTools.handle_tool`: truthy `email` demanded first (structured error
result, no credential load, on failure); then one authenticated `gmail`/`v1`
handle; then the per-operation dispatch (`inner`), whose body never lets an
exception escape. -/
def gmail_handle_tool (auth : String → String → String → Option Handle)
    (inner : String → Args → ToolResult) (name : String) (args : Args) : HandleOutcome :=
  match truthyGet args "email" with
  | none => ⟨.ok (textResult "Error: Email is required"), 0⟩
  | some email =>
    match auth email "gmail" "v1" with
    | none => ⟨.ok (textResult "Error: Account not authenticated"), 1⟩
    | some _ => ⟨.ok (inner name args), 1⟩

/-- `CalendarTools.handle_tool`: same preamble against `calendar`/`v3`. -/
def calendar_handle_tool (auth : String → String → String → Option Handle)
    (inner : String → Args → ToolResult) (name : String) (args : Args) : HandleOutcome :=
  match truthyGet args "email" with
  | none => ⟨.ok (textResult "Error: Email is required"), 0⟩
  | some email =>
    match auth email "calendar" "v3" with
    | none => ⟨.ok (textResult "Error: Account not authenticated"), 1⟩
    | some _ => ⟨.ok (inner name args), 1⟩

/-- `DriveTools.handle_tool`: same preamble against `drive`/`v3`. -/
def drive_handle_tool (auth : String → String → String → Option Handle)
    (inner : String → Args → ToolResult) (name : String) (args : Args) : HandleOutcome :=
  match truthyGet args "email" with
  | none => ⟨.ok (textResult "Error: Email is required"), 0⟩
  | some email =>
    match auth email "drive" "v3" with
    | none => ⟨.ok (textResult "Error: Account not authenticated"), 1⟩
    | some _ => ⟨.ok (inner name args), 1⟩

/-- `ContactsTools.handle_tool`: same preamble against `people`/`v1`. -/
def contacts_handle_tool (auth : String → String → String → Option Handle)
    (inner : String → Args → ToolResult) (name : String) (args : Args) : HandleOutcome :=
  match truthyGet args "email" with
  | none => ⟨.ok (textResult "Error: Email is required"), 0⟩
  | some email =>
    match auth email "people" "v1" with
    | none => ⟨.ok (textResult "Error: Account not authenticated"), 1⟩
    | some _ => ⟨.ok (inner name args), 1⟩

/-- `DocsTools.handle_tool`: truthy `email` demanded first; then the
`docs`/`v1` and `drive`/`v3` handles are both fetched before either is
checked; absence of either is "not authenticated". -/
def docs_handle_tool (auth : String → String → String → Option Handle)
    (inner : String → Args → ToolResult) (name : String) (args : Args) : HandleOutcome :=
  match truthyGet args "email" with
  | none => ⟨.ok (textResult "Error: Email is required"), 0⟩
  | some email =>
    let docs := auth email "docs" "v1"
    let drive := auth email "drive" "v3"
    if docs.isNone || drive.isNone then ⟨.ok (textResult "Error: Account not authenticated"), 2⟩
    else ⟨.ok (inner name args), 2⟩

/-- `SheetsTools.handle_tool`: like the docs module, fetching `sheets`/`v4`
and `drive`/`v3` jointly. -/
def sheets_handle_tool (auth : String → String → String → Option Handle)
    (inner : String → Args → ToolResult) (name : String) (args : Args) : HandleOutcome :=
  match truthyGet args "email" with
  | none => ⟨.ok (textResult "Error: Email is required"), 0⟩
  | some email =>
    let sheets := auth email "sheets" "v4"
    let drive := auth email "drive" "v3"
    if sheets.isNone || drive.isNone then ⟨.ok (textResult "Error: Account not authenticated"), 2⟩
    else ⟨.ok (inner name args), 2⟩

/-- Everything `MCPServer` holds that the dispatcher consults: the auth
manager behind the modules and the per-module operation bodies, as oracles. -/
structure Oracles where
  auth : String → String → String → Option Handle
  accounts : List String
  removeOk : String → Bool
  authUrlRes : String ⊕ String
  gmailInner : String → Args → ToolResult
  calendarInner : String → Args → ToolResult
  driveInner : String → Args → ToolResult
  contactsInner : String → Args → ToolResult
  docsInner : String → Args → ToolResult
  sheetsInner : String → Args → ToolResult

/-- The `try` body of `MCPServer._handle_call_tool`: the `has_tool` chain
over the seven modules in registration order, raising
`ValueError("Unknown tool: ...")` when no module claims the name. -/
def routeTool (O : Oracles) (name : String) (args : Args) : Except String ToolResult :=
  if name ∈ accountToolNames then
    (account_handle_tool O.accounts O.removeOk O.authUrlRes name args).result
  else if name ∈ gmailToolNames then
    (gmail_handle_tool O.auth O.gmailInner name args).result
  else if name ∈ calendarToolNames then
    (calendar_handle_tool O.auth O.calendarInner name args).result
  else if name ∈ driveToolNames then
    (drive_handle_tool O.auth O.driveInner name args).result
  else if name ∈ contactsToolNames then
    (contacts_handle_tool O.auth O.contactsInner name args).result
  else if name ∈ docsToolNames then
    (docs_handle_tool O.auth O.docsInner name args).result
  else if name ∈ sheetsToolNames then
    (sheets_handle_tool O.auth O.sheetsInner name args).result
  else
    .error ("Unknown tool: " ++ name)

/-- `MCPServer._get_all_tools`: the concatenation of all seven modules'
descriptor lists, in registration order. -/
def get_all_tools : List String :=
  accountToolNames ++ gmailToolNames ++ calendarToolNames ++ driveToolNames ++
    contactsToolNames ++ docsToolNames ++ sheetsToolNames

/-- Result payload of a JSON-RPC response: the `initialize` handshake blob
(contents elided), the descriptor catalog, or a tool result. -/
inductive RpcResult where
  | init : RpcResult
  | tools (ts : List String) : RpcResult
  | call (r : ToolResult) : RpcResult
deriving DecidableEq

/-- A JSON-RPC response envelope: `result` or `error {code, message}`, with
the echoed `id` (`none` is JSON `null`/absent). -/
inductive RpcResponse where
  | ok (id : Option Int) (res : RpcResult) : RpcResponse
  | err (id : Option Int) (code : Int) (msg : String) : RpcResponse
deriving DecidableEq

/-- The error code both `except` arms (`MCPServer._handle_call_tool` and the
`run` loop's catch-all) attach to a caught exception. -/
def internalErrorCode : Int := -32603

/-- `MCPServer._handle_call_tool`: route, wrap a returned result in a success
envelope, and convert a raised exception into an error envelope carrying
`internalErrorCode`. -/
def handle_call_tool (O : Oracles) (id : Option Int) (name : String) (args : Args) :
    RpcResponse :=
  match routeTool O name args with
  | .ok r => .ok id (.call r)
  | .error e => .err id internalErrorCode e

/-- `MCPServer._handle_list_tools`: the full catalog in a success envelope. -/
def handle_list_tools (id : Option Int) : RpcResponse :=
  .ok id (.tools get_all_tools)

/-- One inbound JSON-RPC request (`id`, `method`, and the `params` fields the
dispatcher reads for `tools/call`). -/
structure Request where
  id : Option Int
  method : String
  name : String
  args : Args
deriving DecidableEq

/-- `MCPServer._handle_request`: the four built-in methods, the
response-free notification, and the method-not-found error. -/
def handle_request (O : Oracles) (req : Request) : Option RpcResponse :=
  if req.method = "initialize" then some (.ok req.id .init)
  else if req.method = "tools/list" then some (handle_list_tools req.id)
  else if req.method = "tools/call" then some (handle_call_tool O req.id req.name req.args)
  else if req.method = "notifications/initialized" then none
  else some (.err req.id (-32601) ("Method not found: " ++ req.method))

/-- One line read by the `run` loop: either it parses to a request object or
`json.loads` raises (`malformed`, carrying the decoder's message). -/
inductive InLine where
  | parsed (req : Request) : InLine
  | malformed (emsg : String) : InLine

/-- `MCPServer.run`: the synchronous read-evaluate-respond loop.  End of
input ends the loop; an unparseable line yields one parse-error response with
a null id and the loop continues; a parsed request yields the handler's
response when there is one. -/
def run (O : Oracles) : List InLine → List RpcResponse
  | [] => []
  | .malformed e :: rest =>
    .err none (-32700) ("Parse error: " ++ e) :: run O rest
  | .parsed req :: rest =>
    match handle_request O req with
    | some resp => resp :: run O rest
    | none => run O rest

/-! ## Authorization state generation (`AuthManager.get_auth_url`)

`get_auth_url` sets `state = str(uuid.uuid4())`.  CPython's `uuid.uuid4`
draws 16 bytes from `os.urandom`, then forces the version nibble (bits
79..76) to `0100` and the variant bits (63..62) to `10`, leaving 122 free
random bits; `str` renders the 128-bit value as 32 zero-padded lowercase hex
digits with dashes after digits 8, 12, 16 and 20. -/

/-- Lowercase hex digit character. -/
def hexChar (d : Nat) : Char :=
  if d < 10 then Char.ofNat (48 + d) else Char.ofNat (87 + d)

/-- Inverse of `hexChar` on hex digits. -/
def hexVal (c : Char) : Nat :=
  if 97 ≤ c.toNat then c.toNat - 87 else c.toNat - 48

/-- Little-endian digit list padded to 32 digits with zeros. -/
def pad32 (l : List Nat) : List Nat :=
  l ++ List.replicate (32 - l.length) 0

/-- The 32 hex digits of a 128-bit value, most significant first
(`'%032x' % int`). -/
def uuidDigitsBE (v : Nat) : List Nat :=
  (pad32 (Nat.digits 16 v)).reverse

/-- Insert the four dashes of the 8-4-4-4-12 UUID layout. -/
def insertDashes (l : List Char) : List Char :=
  l.take 8 ++ '-' :: ((l.drop 8).take 4 ++ '-' :: ((l.drop 12).take 4 ++ '-' ::
    ((l.drop 16).take 4 ++ '-' :: l.drop 20)))

/-- `str` of a UUID value. -/
def uuidStr (v : Nat) : String :=
  String.mk (insertDashes ((uuidDigitsBE v).map hexChar))

/-- The 128-bit UUID integer assembled from the 122 free random bits `r`:
bits 61..0 of `r` fill bits 61..0, bits 73..62 fill bits 75..64, bits 121..74
fill bits 127..80, with the version nibble `4` at bits 79..76 and the variant
`10` at bits 63..62. -/
def uuid4val (r : Nat) : Nat :=
  (r / 2 ^ 74) * 2 ^ 80 + 4 * 2 ^ 76 + ((r / 2 ^ 62) % 2 ^ 12) * 2 ^ 64 +
    2 * 2 ^ 62 + (r % 2 ^ 62)

/-- Modelled from the spec: the `state` value `AuthManager.get_auth_url`
returns is `str(uuid.uuid4())`; `uuid.uuid4`'s `os.urandom` randomness
(outside the repository) is modelled as a uniform draw `r` over the 122 free
bits of a version-4 UUID. -/
def get_auth_url_state (r : Fin (2 ^ 122)) : String :=
  uuidStr (uuid4val r.val)

/-- Recover the UUID integer from its string rendering: strip dashes, read
the hex digits back (most significant first). -/
def uuidDecode (s : String) : Nat :=
  Nat.ofDigits 16 (((s.data.filter fun c => c != '-').map hexVal).reverse)

lemma hexVal_hexChar : ∀ d < 16, hexVal (hexChar d) = d := by decide

lemma hexChar_ne_dash : ∀ d < 16, hexChar d ≠ '-' := by decide

lemma filter_insertDashes (l : List Char) (h : ∀ c ∈ l, (c != '-') = true) :
    (insertDashes l).filter (fun c => c != '-') = l := by
  have hseg : ∀ m : List Char, (∀ c ∈ m, c ∈ l) →
      m.filter (fun c => c != '-') = m := by
    intro m hm
    exact List.filter_eq_self.mpr fun a ha => h a (hm a ha)
  have t8 := hseg (l.take 8) (fun c hc => List.take_subset _ _ hc)
  have t12 := hseg ((l.drop 8).take 4)
    (fun c hc => List.drop_subset _ _ (List.take_subset _ _ hc))
  have t16 := hseg ((l.drop 12).take 4)
    (fun c hc => List.drop_subset _ _ (List.take_subset _ _ hc))
  have t20 := hseg ((l.drop 16).take 4)
    (fun c hc => List.drop_subset _ _ (List.take_subset _ _ hc))
  have d20 := hseg (l.drop 20) (fun c hc => List.drop_subset _ _ hc)
  unfold insertDashes
  simp only [List.filter_append, List.filter_cons, show (('-' : Char) != '-') = false by rfl,
    Bool.false_eq_true, if_false, t8, t12, t16, t20, d20]
  have step : ∀ a b : Nat, l.take (a + b) = l.take a ++ (l.drop a).take b :=
    fun a b => List.take_add l a b
  calc l.take 8 ++ ((l.drop 8).take 4 ++ ((l.drop 12).take 4 ++
        ((l.drop 16).take 4 ++ l.drop 20)))
      = (l.take 8 ++ (l.drop 8).take 4) ++ ((l.drop 12).take 4 ++
        ((l.drop 16).take 4 ++ l.drop 20)) := by simp [List.append_assoc]
    _ = l.take 12 ++ ((l.drop 12).take 4 ++ ((l.drop 16).take 4 ++ l.drop 20)) := by
        rw [← step 8 4]
    _ = (l.take 12 ++ (l.drop 12).take 4) ++ ((l.drop 16).take 4 ++ l.drop 20) := by
        simp [List.append_assoc]
    _ = l.take 16 ++ ((l.drop 16).take 4 ++ l.drop 20) := by rw [← step 12 4]
    _ = (l.take 16 ++ (l.drop 16).take 4) ++ l.drop 20 := by simp [List.append_assoc]
    _ = l.take 20 ++ l.drop 20 := by rw [← step 16 4]
    _ = l := List.take_append_drop 20 l

lemma uuidDigitsBE_lt (v : Nat) : ∀ d ∈ uuidDigitsBE v, d < 16 := by
  intro d hd
  unfold uuidDigitsBE pad32 at hd
  rw [List.mem_reverse, List.mem_append] at hd
  rcases hd with hd | hd
  · exact Nat.digits_lt_base (by norm_num) hd
  · rw [List.eq_of_mem_replicate hd]; norm_num

lemma ofDigits_replicate_zero (b k : Nat) : Nat.ofDigits b (List.replicate k 0) = 0 := by
  induction k with
  | zero => simp [Nat.ofDigits]
  | succ n ih => simp [List.replicate, Nat.ofDigits_cons, ih]

lemma uuidDecode_uuidStr (v : Nat) : uuidDecode (uuidStr v) = v := by
  unfold uuidDecode uuidStr
  have hmem : ∀ c ∈ (uuidDigitsBE v).map hexChar, (c != '-') = true := by
    intro c hc
    rw [List.mem_map] at hc
    obtain ⟨d, hd, rfl⟩ := hc
    exact bne_iff_ne.mpr (hexChar_ne_dash d (uuidDigitsBE_lt v d hd))
  show Nat.ofDigits 16
      ((((String.mk (insertDashes ((uuidDigitsBE v).map hexChar))).data.filter
        fun c => c != '-').map hexVal).reverse) = v
  have hdata : (String.mk (insertDashes ((uuidDigitsBE v).map hexChar))).data =
      insertDashes ((uuidDigitsBE v).map hexChar) := rfl
  rw [hdata, filter_insertDashes _ hmem, List.map_map]
  have hid : ((uuidDigitsBE v).map (hexVal ∘ hexChar)) = uuidDigitsBE v := by
    have heq : ∀ d ∈ uuidDigitsBE v, (hexVal ∘ hexChar) d = id d :=
      fun d hd => hexVal_hexChar d (uuidDigitsBE_lt v d hd)
    rw [List.map_congr_left heq, List.map_id]
  rw [hid]
  unfold uuidDigitsBE
  rw [List.reverse_reverse]
  unfold pad32
  rw [Nat.ofDigits_append, Nat.ofDigits_digits, ofDigits_replicate_zero]
  ring

lemma uuidStr_injOn {a b : Nat} (h : uuidStr a = uuidStr b) : a = b := by
  have := congrArg uuidDecode h
  rwa [uuidDecode_uuidStr, uuidDecode_uuidStr] at this

lemma uuid4val_inj {a b : Nat} (ha : a < 2 ^ 122) (hb : b < 2 ^ 122)
    (h : uuid4val a = uuid4val b) : a = b := by
  unfold uuid4val at h
  omega

lemma get_auth_url_state_inj {a b : Fin (2 ^ 122)}
    (h : get_auth_url_state a = get_auth_url_state b) : a = b := by
  unfold get_auth_url_state at h
  exact Fin.ext (uuid4val_inj a.isLt b.isLt (uuidStr_injOn h))

/-! ## Concrete fixtures used by counterexamples and witnesses -/

/-- A token directory holding one account whose record has a past expiry
(instant 0) and no refresh token. -/
def cexStore : Store :=
  [("a@x.com", ⟨some "tok", none, some "https://oauth2.googleapis.com/token",
    some "cid", some "secret", some ["openid"], some 0⟩)]

/-- The credentials `load_tokens` yields from `cexStore`. -/
def cexCreds : Credentials :=
  ⟨some "tok", none, some "https://oauth2.googleapis.com/token",
    some "cid", some "secret", some ["openid"], some 0⟩

/-- A token directory holding one account whose record has a past expiry
(instant 0) and a refresh token. -/
def cexStoreR : Store :=
  [("a@x.com", ⟨some "tok", some "rt", some "https://oauth2.googleapis.com/token",
    some "cid", some "secret", some ["openid"], some 0⟩)]

/-- The credentials `load_tokens` yields from `cexStoreR`. -/
def cexCredsR : Credentials :=
  ⟨some "tok", some "rt", some "https://oauth2.googleapis.com/token",
    some "cid", some "secret", some ["openid"], some 0⟩

/-- An empty token directory. -/
def emptyStore : Store := []

/-- An auth-manager oracle under which no account authenticates. -/
def noAuth : String → String → String → Option Handle := fun _ _ _ => none

/-- An inner-operation oracle producing an empty result for everything. -/
def emptyInner : String → Args → ToolResult := fun _ _ => []

/-- A removal oracle that always succeeds. -/
def alwaysRemove : String → Bool := fun _ => true

/-- Concrete oracles: no account authenticates, no accounts stored, removal
succeeds, URL generation succeeds, every inner operation yields an empty
result. -/
def cexOracles : Oracles :=
  { auth := noAuth
    accounts := []
    removeOk := alwaysRemove
    authUrlRes := .inl "https://accounts.google.com/o/oauth2/auth?x=1"
    gmailInner := emptyInner
    calendarInner := emptyInner
    driveInner := emptyInner
    contactsInner := emptyInner
    docsInner := emptyInner
    sheetsInner := emptyInner }

/-! ## Claims -/

/-- C1 (counterexample): the claim says that for a stored record with a past
expiry and no refresh token, `get_authenticated_client` returns absent.  On
`cexStore` (expiry 0, no refresh token, current time 100) the code skips the
refresh branch and returns a handle built from the stale token — not
absent. -/
theorem expired_no_refresh_returns_handle_cex :
    (get_authenticated_client none 100 cexStore "a@x.com" "gmail" "v1").handle ≠ none := by
  decide

/-- C1 (amended): for a stored record with a past expiry and no (truthy)
refresh token, `get_authenticated_client` makes no refresh call and persists
nothing, but instead of returning absent it returns a handle built from the
stored, stale token. -/
theorem get_authenticated_client_expired_no_refresh
    (rr : Option RefreshResponse) (now : Int) (s : Store)
    (email service version : String) (creds : Credentials)
    (hload : load_tokens s email = some creds)
    (hexp : creds.expired now = true)
    (hrt : truthyStr creds.refresh_token = false) :
    get_authenticated_client rr now s email service version =
      ⟨some ⟨service, version, creds.token⟩, s, 0⟩ := by
  unfold get_authenticated_client
  rw [hload]
  simp [hexp, hrt]

/-- C1 (witness): the amended theorem applied to `cexStore` at time 100. -/
theorem get_authenticated_client_expired_no_refresh_witness :
    get_authenticated_client none 100 cexStore "a@x.com" "gmail" "v1" =
      ⟨some ⟨"gmail", "v1", cexCreds.token⟩, cexStore, 0⟩ :=
  get_authenticated_client_expired_no_refresh none 100 cexStore "a@x.com" "gmail" "v1"
    cexCreds (by decide) (by decide) (by decide)

/-- C3: for a stored record with a past expiry and a present refresh token,
`get_authenticated_client` issues exactly one refresh call; on success it
persists the refreshed record — whose new expiry `now + expires_in` is later
than the old one — and returns a handle built from the refreshed token; if
the refresh fails it returns absent, persists nothing, and raises nothing
(the model is a total function). -/
theorem get_authenticated_client_refresh
    (now : Int) (s : Store) (email service version : String)
    (creds : Credentials) (resp : RefreshResponse) (oldE : Int)
    (hload : load_tokens s email = some creds)
    (hexp : creds.expired now = true)
    (hrt : truthyStr creds.refresh_token = true)
    (hE : creds.expiry = some oldE)
    (hpos : 0 < resp.expires_in) :
    (get_authenticated_client (some resp) now s email service version =
      ⟨some ⟨service, version, some resp.access_token⟩,
        save_tokens s email (refreshCreds creds resp now), 1⟩)
    ∧ (refreshCreds creds resp now).expiry = some (now + resp.expires_in)
    ∧ oldE < now + resp.expires_in
    ∧ get_authenticated_client none now s email service version = ⟨none, s, 1⟩ := by
  have hle : oldE ≤ now := by
    unfold Credentials.expired at hexp
    rw [hE] at hexp
    exact of_decide_eq_true hexp
  refine ⟨?_, rfl, by omega, ?_⟩
  · unfold get_authenticated_client
    rw [hload]
    simp [hexp, hrt, refreshCreds]
  · unfold get_authenticated_client
    rw [hload]
    simp [hexp, hrt]

/-- C3 (witness): the refresh theorem applied to `cexStoreR` (old expiry 0)
at time 100 with a refresh response of lifetime 3600. -/
theorem get_authenticated_client_refresh_witness :
    (get_authenticated_client (some ⟨"newtok", 3600⟩) 100 cexStoreR "a@x.com" "gmail" "v1" =
      ⟨some ⟨"gmail", "v1", some (RefreshResponse.mk "newtok" 3600).access_token⟩,
        save_tokens cexStoreR "a@x.com" (refreshCreds cexCredsR ⟨"newtok", 3600⟩ 100), 1⟩)
    ∧ (refreshCreds cexCredsR ⟨"newtok", 3600⟩ 100).expiry =
        some (100 + (RefreshResponse.mk "newtok" 3600).expires_in)
    ∧ (0 : Int) < 100 + (RefreshResponse.mk "newtok" 3600).expires_in
    ∧ get_authenticated_client none 100 cexStoreR "a@x.com" "gmail" "v1" =
        ⟨none, cexStoreR, 1⟩ :=
  get_authenticated_client_refresh 100 cexStoreR "a@x.com" "gmail" "v1"
    cexCredsR ⟨"newtok", 3600⟩ 0 (by decide) (by decide) (by decide) (by decide) (by decide)

/-- C4: saving any credential record and loading it back yields a record
equal field for field, the expiry denoting the same instant. -/
theorem save_load_roundtrip (s : Store) (email : String) (c : Credentials) :
    load_tokens (save_tokens s email c) email = some c := by
  obtain ⟨t, rt, tu, ci, cs, sc, ex⟩ := c
  unfold load_tokens save_tokens storeGet storeSet
  simp only [List.lookup, beq_self_eq_true]
  cases ex <;> rfl

/-- C8: removing an account with no stored credential file reports success
and leaves the directory unchanged, and a subsequent load for that identity
still returns absent. -/
theorem remove_account_missing (s : Store) (email : String)
    (h : storeGet s email = none) :
    remove_account s email = (true, s) ∧
      load_tokens (remove_account s email).2 email = none := by
  have h2 : remove_account s email = (true, s) := by
    unfold remove_account
    rw [h]
    rfl
  refine ⟨h2, ?_⟩
  rw [h2]
  unfold load_tokens
  rw [h]

/-- C8 (witness): removing a never-authenticated account from the empty
directory. -/
theorem remove_account_missing_witness :
    remove_account emptyStore "a@x.com" = (true, emptyStore) ∧
      load_tokens (remove_account emptyStore "a@x.com").2 "a@x.com" = none :=
  remove_account_missing emptyStore "a@x.com" (by decide)

/-- C9: `handle_oauth_callback` never reads its `state` argument — for a
fixed code, store and oracles, two runs differing only in the supplied state
produce the same outcome and the same persisted credential state. -/
theorem handle_oauth_callback_ignores_state
    (fetchToken : String → Except String Credentials)
    (userinfo : Credentials → Except String (Option String))
    (s : Store) (code st1 st2 : String) :
    handle_oauth_callback fetchToken userinfo s code st1 =
      handle_oauth_callback fetchToken userinfo s code st2 := rfl

/-- C5: the `tools/list` response carries exactly the concatenation of the
seven capability modules' descriptor lists, its length is the sum of the
modules' descriptor counts (3+6+5+7+1+7+6 = 35), and no two descriptors
share a name. -/
theorem tools_list_catalog :
    handle_list_tools (some 1) = RpcResponse.ok (some 1) (.tools get_all_tools)
    ∧ get_all_tools =
        accountToolNames ++ gmailToolNames ++ calendarToolNames ++ driveToolNames ++
          contactsToolNames ++ docsToolNames ++ sheetsToolNames
    ∧ get_all_tools.length =
        accountToolNames.length + gmailToolNames.length + calendarToolNames.length +
          driveToolNames.length + contactsToolNames.length + docsToolNames.length +
          sheetsToolNames.length
    ∧ get_all_tools.Nodup :=
  ⟨rfl, rfl, by decide, by decide⟩

/-- C7: an unparseable input line yields exactly one response, with error
code `-32700` and a null id, prepended to the responses of the remaining
lines — the loop does not terminate on it. -/
theorem run_malformed_line (O : Oracles) (e : String) (rest : List InLine) :
    run O (InLine.malformed e :: rest) =
      RpcResponse.err none (-32700) ("Parse error: " ++ e) :: run O rest := rfl

/-- C2 (counterexample): the claim says an unknown tool name yields an error
whose code is distinct from the one used for tool-execution failures.  The
dispatcher routes the unknown name into the shared `except` arm, so the
response code is `internalErrorCode = -32603` — the very code that arm
assigns to exceptions from tool execution, not a distinct one. -/
theorem unknown_tool_error_code_cex :
    handle_call_tool cexOracles (some 1) "frobnicate" [] =
      RpcResponse.err (some 1) (-32603) "Unknown tool: frobnicate"
    ∧ internalErrorCode = -32603 := by
  constructor
  · decide
  · rfl

/-- C2 (amended): a `tools/call` whose name no module claims yields a
structured error envelope `Unknown tool: <name>`, but its code is
`internalErrorCode` (`-32603`), the same code the dispatcher assigns to
exceptions raised during tool execution — not a distinct protocol-level
code. -/
theorem handle_call_tool_unknown (O : Oracles) (id : Option Int)
    (name : String) (args : Args) (h : name ∉ get_all_tools) :
    handle_call_tool O id name args =
      RpcResponse.err id internalErrorCode ("Unknown tool: " ++ name) := by
  unfold get_all_tools at h
  simp only [List.mem_append, not_or] at h
  obtain ⟨⟨⟨⟨⟨⟨h1, h2⟩, h3⟩, h4⟩, h5⟩, h6⟩, h7⟩ := h
  unfold handle_call_tool routeTool
  rw [if_neg h1, if_neg h2, if_neg h3, if_neg h4, if_neg h5, if_neg h6, if_neg h7]

/-- C2 (witness): the amended theorem applied to the unregistered name
`frobnicate`. -/
theorem handle_call_tool_unknown_witness :
    handle_call_tool cexOracles (some 1) "frobnicate" [] =
      RpcResponse.err (some 1) internalErrorCode ("Unknown tool: " ++ "frobnicate") :=
  handle_call_tool_unknown cexOracles (some 1) "frobnicate" [] (by decide)

/-- C6 (counterexample): the claim says every capability module returns an
"account identity required" error when the arguments lack the email.  The
account module's `list_workspace_accounts`, invoked with empty arguments,
instead succeeds and returns the account listing. -/
theorem account_module_no_email_cex :
    (account_handle_tool [] (fun _ => true) (Sum.inl "u") "list_workspace_accounts" []).result
      = Except.ok ["[]"]
    ∧ (Except.ok ["[]"] : Except String ToolResult) ≠
        Except.ok (textResult "Error: Email is required") := by
  constructor
  · decide
  · decide

/-- C6 (amended): every capability module except the account module, on any
operation name and any arguments lacking a (truthy) email, returns the
structured `Error: Email is required` result without raising, loading
credentials, or touching a third-party service; of the account module's
operations only `remove_workspace_account` demands the email this way. -/
theorem service_modules_require_email
    (auth : String → String → String → Option Handle)
    (innerG innerC innerD innerCt innerDoc innerSh : String → Args → ToolResult)
    (removeOk : String → Bool) (accounts : List String) (authUrlRes : String ⊕ String)
    (name : String) (args : Args)
    (h : truthyGet args "email" = none) :
    gmail_handle_tool auth innerG name args =
      ⟨.ok (textResult "Error: Email is required"), 0⟩
    ∧ calendar_handle_tool auth innerC name args =
      ⟨.ok (textResult "Error: Email is required"), 0⟩
    ∧ drive_handle_tool auth innerD name args =
      ⟨.ok (textResult "Error: Email is required"), 0⟩
    ∧ contacts_handle_tool auth innerCt name args =
      ⟨.ok (textResult "Error: Email is required"), 0⟩
    ∧ docs_handle_tool auth innerDoc name args =
      ⟨.ok (textResult "Error: Email is required"), 0⟩
    ∧ sheets_handle_tool auth innerSh name args =
      ⟨.ok (textResult "Error: Email is required"), 0⟩
    ∧ account_handle_tool accounts removeOk authUrlRes "remove_workspace_account" args =
      ⟨.ok (textResult "Error: email is required"), 0⟩ := by
  unfold gmail_handle_tool calendar_handle_tool drive_handle_tool contacts_handle_tool
    docs_handle_tool sheets_handle_tool account_handle_tool
  rw [h]
  exact ⟨rfl, rfl, rfl, rfl, rfl, rfl, rfl⟩

/-- C6 (witness): the amended theorem applied to a supported gmail operation
with empty arguments and concrete oracles. -/
theorem service_modules_require_email_witness :
    gmail_handle_tool noAuth emptyInner "search_workspace_emails" [] =
      ⟨.ok (textResult "Error: Email is required"), 0⟩
    ∧ calendar_handle_tool noAuth emptyInner "search_workspace_emails" [] =
      ⟨.ok (textResult "Error: Email is required"), 0⟩
    ∧ drive_handle_tool noAuth emptyInner "search_workspace_emails" [] =
      ⟨.ok (textResult "Error: Email is required"), 0⟩
    ∧ contacts_handle_tool noAuth emptyInner "search_workspace_emails" [] =
      ⟨.ok (textResult "Error: Email is required"), 0⟩
    ∧ docs_handle_tool noAuth emptyInner "search_workspace_emails" [] =
      ⟨.ok (textResult "Error: Email is required"), 0⟩
    ∧ sheets_handle_tool noAuth emptyInner "search_workspace_emails" [] =
      ⟨.ok (textResult "Error: Email is required"), 0⟩
    ∧ account_handle_tool [] alwaysRemove (Sum.inl "u") "remove_workspace_account" [] =
      ⟨.ok (textResult "Error: email is required"), 0⟩ :=
  service_modules_require_email noAuth emptyInner emptyInner emptyInner emptyInner
    emptyInner emptyInner alwaysRemove [] (Sum.inl "u") "search_workspace_emails" []
    (by decide)

/-- C10: the `state` values of `get_auth_url` over the 122 free random bits
of a version-4 UUID collide exactly on the diagonal: the collision
probability of two independent draws is `2 ^ (-122)`, which is overwhelmingly
small (below `2 ^ (-100)`); equivalently, two calls with different random
draws always yield different state strings. -/
theorem get_auth_url_state_collision :
    (((Finset.univ.filter fun p : Fin (2 ^ 122) × Fin (2 ^ 122) =>
        get_auth_url_state p.1 = get_auth_url_state p.2).card : ℚ) /
        ((2 ^ 122 : ℚ) * 2 ^ 122) = 1 / 2 ^ 122)
    ∧ ((1 : ℚ) / 2 ^ 122 < 1 / 2 ^ 100) := by
  constructor
  · have h1 : (Finset.univ.filter fun p : Fin (2 ^ 122) × Fin (2 ^ 122) =>
        get_auth_url_state p.1 = get_auth_url_state p.2) =
        (Finset.univ.filter fun p : Fin (2 ^ 122) × Fin (2 ^ 122) => p.1 = p.2) := by
      apply Finset.filter_congr
      intro p _
      exact ⟨fun h => get_auth_url_state_inj h, fun h => by rw [h]⟩
    have h2 : (Finset.univ.filter fun p : Fin (2 ^ 122) × Fin (2 ^ 122) => p.1 = p.2) =
        Finset.univ.image fun a : Fin (2 ^ 122) => (a, a) := by
      ext ⟨x, y⟩
      simp only [Finset.mem_filter, Finset.mem_univ, true_and, Finset.mem_image]
      constructor
      · intro h
        exact ⟨x, by rw [h]⟩
      · rintro ⟨a, ha⟩
        injection ha with ha1 ha2
        rw [← ha1, ← ha2]
    have hinj : Function.Injective fun a : Fin (2 ^ 122) => (a, a) :=
      fun a b hab => congrArg Prod.fst hab
    rw [h1, h2, Finset.card_image_of_injective _ hinj, Finset.card_univ, Fintype.card_fin]
    push_cast
    rw [div_eq_div_iff (by positivity) (by positivity)]
    ring
  · rw [div_lt_div_iff₀ (by positivity) (by positivity)]
    norm_num

end GoogleWorkspace
